import Mathlib

/-!
A shallow embedding, in Lean, of `src/ec2_controller.py` from the
`aws-secondary-ip` repository: a monitoring/failover controller that watches a
single EC2 instance, decides each cycle whether it needs replacement, and on
failure provisions a replacement instance in another availability zone,
repoints VPC route tables at it, and terminates the old instance.

External effects (AWS API calls, the ICMP probe subprocess, sleeps) are
modelled by explicit environment records and outcome values; the control flow,
branch structure and data transformations of the Python source are translated
function by function.  Each definition's doc comment names the Python
function (and line range) it embeds.
-/

namespace EC2Controller

/-- The dictionary returned by `get_instance_info` (lines 53-60): private IP,
availability zone, lifecycle state, image id, instance type, subnet id.
`ip` is `instance.get('PrivateIpAddress')`, which may be absent. -/
structure InstanceInfo where
  ip : Option String
  az : String
  state : String
  ami_id : String
  instance_type : String
  subnet_id : String
deriving DecidableEq, Repr

/-- Reason attached to a `Replace` decision (main, lines 253-268): the strings
`"not found"`, `"state is {state}"` and `"unreachable"` of the source. -/
inductive ReplaceReason where
  | notFound
  | notRunning (state : String)
  | unreachable
deriving DecidableEq, Repr

/-- The per-cycle failover decision: `noAction` when the monitored instance is
judged healthy, otherwise `replace` with a reason. -/
inductive Action where
  | noAction
  | replace (reason : ReplaceReason)
deriving DecidableEq, Repr

/-- The health observation derived each cycle: whether the instance exists
(the lookup returned info), its lifecycle state, and whether the single
reachability probe (performed only in the running state) succeeded. -/
structure HealthObservation where
  instExists : Bool
  state : String
  reachable : Bool
deriving DecidableEq, Repr

/-- The replacement decision of `main`, lines 249-269: `needs_replacement`
stays false only when info was obtained, the state is `running`, and the ping
was reachable; otherwise the reason is set by the first failing check. -/
def decideReplacement (o : HealthObservation) : Action :=
  if ¬ o.instExists then Action.replace ReplaceReason.notFound
  else if o.state ≠ "running" then Action.replace (ReplaceReason.notRunning o.state)
  else if ¬ o.reachable then Action.replace ReplaceReason.unreachable
  else Action.noAction

/-- Outcome of one `subprocess.run(['ping', ...])` probe as distinguished by
`ping_instance` (lines 17-37): zero exit status, non-zero exit status,
`TimeoutExpired`, or any other exception while launching/running the probe. -/
inductive ProbeOutcome where
  | success
  | nonzeroExit
  | timeoutExpired
  | launchError
deriving DecidableEq, Repr

/-- The argument vector of the probe subprocess (line 21):
one echo request (`-c 1`) with a 2 second per-packet timeout (`-W 2`). -/
def ping_command (ip : String) : List String :=
  ["ping", "-c", "1", "-W", "2", ip]

/-- The `timeout=5` overall bound passed to `subprocess.run` (line 22),
in seconds. -/
def ping_overall_timeout : Nat := 5

/-- `ping_instance` (lines 17-37): true exactly when the probe ran and exited
with status zero; a non-zero exit, a `TimeoutExpired`, or any other exception
all return false. -/
def ping_instance (outcome : ProbeOutcome) : Bool :=
  match outcome with
  | ProbeOutcome.success => true
  | ProbeOutcome.nonzeroExit => false
  | ProbeOutcome.timeoutExpired => false
  | ProbeOutcome.launchError => false

/-- `args.route_destination.split('/')[0]` (main, line 264): the part of the
destination CIDR before the first `/` (the whole string when no `/` occurs). -/
def route_ip (route_destination : String) : String :=
  ⟨route_destination.data.takeWhile (fun c => c ≠ '/')⟩

/-- The observation step of one monitoring cycle (main, lines 244-269), given
the lookup result `info`, the CLI `route_destination`, and the environment's
probe behaviour `probe` (what one ping of a given IP would return).  Returns
the health observation together with the list of IPs actually probed this
cycle: no probe when info is absent or the state is not `running`, exactly one
probe of `route_ip route_destination` otherwise. -/
def observeCycle (info : Option InstanceInfo) (route_destination : String)
    (probe : String → ProbeOutcome) : HealthObservation × List String :=
  match info with
  | none => ({ instExists := false, state := "", reachable := false }, [])
  | some i =>
    if i.state ≠ "running" then
      ({ instExists := true, state := i.state, reachable := false }, [])
    else
      ({ instExists := true, state := i.state,
         reachable := ping_instance (probe (route_ip route_destination)) },
       [route_ip route_destination])

/-- `get_instance_info` (lines 39-63): the `describe_instances` call either
yields the instance fields or raises; the bare `except Exception` turns every
failure — not-found as well as any transient API/network error — into `None`. -/
def get_instance_info (response : Except String InstanceInfo) : Option InstanceInfo :=
  match response with
  | Except.ok i => some i
  | Except.error _ => none

/-- A subnet as seen through `describe_subnets`: its id, VPC and AZ. -/
structure Subnet where
  subnetId : String
  vpcId : String
  az : String
deriving DecidableEq, Repr

/-- The static cloud environment consulted by the replacement path: the
region's availability-zone names in API order (`describe_availability_zones`),
the subnets visible to `describe_subnets`, and the instance id the cloud
assigns to the next `run_instances` call. -/
structure Env where
  azs : List String
  subnets : List Subnet
  newInstanceId : String

/-- `get_other_azs` (lines 73-77): every AZ name of the region other than
`current_az`, in API order. -/
def get_other_azs (env : Env) (current_az : String) : List String :=
  env.azs.filter (fun az => az ≠ current_az)

/-- `get_subnet_in_az` (lines 79-97): resolve the VPC of
`original_subnet_id`, then return the first subnet of that VPC in
`target_az`, or `none` when that VPC has no subnet there (or the original
subnet is unknown). -/
def get_subnet_in_az (env : Env) (target_az original_subnet_id : String) : Option String :=
  match env.subnets.find? (fun s => s.subnetId == original_subnet_id) with
  | none => none
  | some orig =>
    match env.subnets.find? (fun s => s.vpcId == orig.vpcId && s.az == target_az) with
    | some s => some s.subnetId
    | none => none

/-- The fields of `instance_info` consumed by the launch path: AZ, subnet,
AMI and instance type.  The degraded bootstrap of `main` (lines 298-304)
synthesizes exactly these four. -/
structure LaunchSpec where
  az : String
  subnet_id : String
  ami_id : String
  instance_type : String
deriving DecidableEq, Repr

/-- Projection of a full instance-info record onto the launch fields. -/
def InstanceInfo.toSpec (i : InstanceInfo) : LaunchSpec :=
  { az := i.az, subnet_id := i.subnet_id, ami_id := i.ami_id,
    instance_type := i.instance_type }

/-- The externally visible steps of the replacement sequence, in the order
they are emitted. -/
inductive ProvisionEvent where
  | resolveTargetSubnet
  | computeGateway
  | renderUserData
  | runInstances
  | waitRunning
  | describeInstanceForEni
  | disableSourceDestCheck
  | waitStatusOk
  | sleepGrace
  | updateRoutesCall
  | terminateOldInstance
deriving DecidableEq, Repr

/-- `launch_instance_in_az` (lines 162-219): resolve a subnet in the target
AZ within the VPC of `spec.subnet_id` — raising (`Except.error`, after only
the resolution step) when none exists — then compute the subnet gateway,
render the user data, call `run_instances`, wait for the `running` state,
look up the primary network interface, and disable its source/dest check.
Returns the emitted step trace together with the raised error or the new
instance id. -/
def launch_instance_in_az (env : Env) (spec : LaunchSpec) (target_az : String) :
    List ProvisionEvent × Except String String :=
  match get_subnet_in_az env target_az spec.subnet_id with
  | none =>
    ([ProvisionEvent.resolveTargetSubnet],
     Except.error ("No subnet found in AZ " ++ target_az))
  | some _targetSubnet =>
    ([ProvisionEvent.resolveTargetSubnet, ProvisionEvent.computeGateway,
      ProvisionEvent.renderUserData, ProvisionEvent.runInstances,
      ProvisionEvent.waitRunning, ProvisionEvent.describeInstanceForEni,
      ProvisionEvent.disableSourceDestCheck],
     Except.ok env.newInstanceId)

/-- The replacement sequence of `main` after the target AZ is chosen
(lines 315-341): call `launch_instance_in_az`; when it raises, the exception
propagates (no further step runs); on success, wait for the
`instance_status_ok` status checks, sleep the fixed 30 second user-data grace
period, update the static routes, and best-effort terminate the old
instance. -/
def mainReplaceSequence (env : Env) (spec : LaunchSpec) (target_az : String) :
    List ProvisionEvent × Except String String :=
  match launch_instance_in_az env spec target_az with
  | (evs, Except.error e) => (evs, Except.error e)
  | (evs, Except.ok newId) =>
    (evs ++ [ProvisionEvent.waitStatusOk, ProvisionEvent.sleepGrace,
             ProvisionEvent.updateRoutesCall, ProvisionEvent.terminateOldInstance],
     Except.ok newId)

/-- `main` line 302: the hardcoded fallback AMI of the degraded bootstrap. -/
def defaultFallbackAmi : String := "ami-0c02fb55956c7d316"

/-- `main` line 303: the hardcoded fallback instance type. -/
def defaultFallbackInstanceType : String := "t3.micro"

/-- The first subnet `describe_subnets` returns for an AZ filter
(`main` lines 293-301, `subnets['Subnets'][0]`). -/
def firstSubnetInAz (env : Env) (az : String) : Option Subnet :=
  env.subnets.find? (fun s => s.az == az)

/-- Outcome of the replacement branch of one cycle. -/
inductive ReplaceOutcome where
  | fatal
  | skipBackoff (seconds : Nat)
  | launched (knownAz targetAz : String) (spec : LaunchSpec)
deriving DecidableEq, Repr

/-- The target-AZ selection of `main` once a launch spec is in hand
(lines 306-315): list the other AZs of the region; with none available,
print and retry after 5 seconds; otherwise launch in the first of them. -/
def selectTargetAndLaunch (env : Env) (info : LaunchSpec) : ReplaceOutcome :=
  match (get_other_azs env info.az).head? with
  | none => ReplaceOutcome.skipBackoff 5
  | some target_az => ReplaceOutcome.launched info.az target_az info

/-- The replacement branch of `main` (lines 287-315), entered when
`needs_replacement` is true.  With no instance info at all, the degraded
bootstrap picks the region's first AZ (`azs[0]` — an empty region raises an
unhandled IndexError, exiting the process), looks for any subnet there
(retrying after 5 seconds when none exists), and synthesizes a minimal spec
with the fallback AMI and type; then, for both paths, the target AZ is chosen
among the AZs differing from the (known or synthesized) AZ. -/
def replaceBranch (env : Env) (info0 : Option LaunchSpec) : ReplaceOutcome :=
  match info0 with
  | some info => selectTargetAndLaunch env info
  | none =>
    match env.azs.head? with
    | none => ReplaceOutcome.fatal
    | some target_az0 =>
      match firstSubnetInAz env target_az0 with
      | none => ReplaceOutcome.skipBackoff 5
      | some sn =>
        selectTargetAndLaunch env
          { az := target_az0, subnet_id := sn.subnetId,
            ami_id := defaultFallbackAmi,
            instance_type := defaultFallbackInstanceType }

/-- The only loop state carried across cycles is `current_instance_id`
(lines 232, 341): it becomes the new instance id after a completed
replacement and is unchanged by a skipped cycle. -/
def cycleCurrentId (env : Env) (currentId : String) (info0 : Option LaunchSpec) : String :=
  match replaceBranch env info0 with
  | ReplaceOutcome.launched _ _ _ => env.newInstanceId
  | _ => currentId

/-- One route of a route table: a destination CIDR mapped to a target
instance id. -/
structure Route where
  destinationCidr : String
  targetInstance : String
deriving DecidableEq, Repr

/-- A VPC route table: its id, owning VPC, and current routes. -/
structure RouteTable where
  routeTableId : String
  vpcId : String
  routes : List Route
deriving DecidableEq, Repr

/-- The `ec2.delete_route(RouteTableId, DestinationCidrBlock)` effect on one
table: remove the route(s) for that exact destination CIDR (the surrounding
bare `except: pass` of `update_routes`, line 137, makes absence a no-op
rather than an error, so the modelled effect is total). -/
def delete_route (cidr : String) (rt : RouteTable) : RouteTable :=
  { rt with routes := rt.routes.filter (fun r => !(r.destinationCidr == cidr)) }

/-- Whether a table already holds a route for `cidr`. -/
def routeExistsFor (rt : RouteTable) (cidr : String) : Bool :=
  rt.routes.any (fun r => r.destinationCidr == cidr)

/-- The `ec2.create_route(RouteTableId, DestinationCidrBlock, InstanceId)`
effect on one table: add a route for `cidr` to `instId`; when a route for
`cidr` already exists the API raises `RouteAlreadyExists`, which
`update_routes` catches and logs (line 148), leaving the table unchanged. -/
def create_route (cidr instId : String) (rt : RouteTable) : RouteTable :=
  if routeExistsFor rt cidr then rt
  else { rt with routes := rt.routes ++ [{ destinationCidr := cidr, targetInstance := instId }] }

/-- Injected failures for one table's iteration of the `update_routes` loop:
whether the delete API call itself raises (caught by `except: pass`) and
whether the create API call raises (caught and logged). -/
structure TableFaults where
  deleteApiFails : Bool
  createApiFails : Bool
deriving DecidableEq, Repr

/-- One iteration of the `update_routes` loop (lines 129-149) on the single
table named by the current route-table id: attempt the delete (any exception
swallowed), then attempt the create (any exception logged); each attempt that
does not fail applies its effect. -/
def processTable (cidr newId : String) (f : TableFaults) (rt : RouteTable) : RouteTable :=
  let afterDelete := if f.deleteApiFails then rt else delete_route cidr rt
  if f.createApiFails then afterDelete else create_route cidr newId afterDelete

/-- `get_route_tables` (lines 99-112), given the already-resolved VPC id: the
ids of every route table of that VPC. -/
def get_route_tables (vpcId : String) (tables : List RouteTable) : List String :=
  (tables.filter (fun rt => rt.vpcId == vpcId)).map (fun rt => rt.routeTableId)

/-- The API-call attempts the loop makes, for the error-independence
properties: one delete attempt and one create attempt per enumerated id. -/
inductive RouteOp where
  | deleteAttempt (routeTableId : String)
  | createAttempt (routeTableId : String)
deriving DecidableEq, Repr

/-- Apply an effect to the one table named by `rtId`, leaving the rest of the
world unchanged. -/
def applyToTable (rtId : String) (f : RouteTable → RouteTable)
    (tables : List RouteTable) : List RouteTable :=
  tables.map (fun rt => if rt.routeTableId == rtId then f rt else rt)

/-- The `for rt_id in route_table_ids` loop of `update_routes`
(lines 129-149): for each enumerated id in order, attempt delete then create
on that table (with that id's injected faults), never aborting — a failure on
one table does not stop the iteration.  Returns the final tables and the trace
of attempted API calls. -/
def update_routes_loop (cidr newId : String) (faults : String → TableFaults) :
    List String → List RouteTable → List RouteTable × List RouteOp
  | [], tables => (tables, [])
  | rtId :: rest, tables =>
    let tables' := applyToTable rtId (processTable cidr newId (faults rtId)) tables
    let out := update_routes_loop cidr newId faults rest tables'
    (out.1, RouteOp.deleteAttempt rtId :: RouteOp.createAttempt rtId :: out.2)

/-- The environment consulted by `update_routes` before the loop: what
`get_instance_info` returns for each instance id, and the VPC of each subnet
(`describe_subnets`). -/
structure RouteEnv where
  lookup : String → Option InstanceInfo
  subnetVpc : String → Option String

/-- Lines 119-125 of `update_routes`: the subnet whose VPC scopes the
reconciliation — the old instance's subnet when its lookup succeeds, else the
new instance's; `none` when both lookups fail (the Python then raises an
uncaught `TypeError` on `new_info['subnet_id']`). -/
def resolve_subnet (env : RouteEnv) (old_instance_id new_instance_id : String) :
    Option String :=
  match env.lookup old_instance_id with
  | some i => some i.subnet_id
  | none => (env.lookup new_instance_id).map (fun i => i.subnet_id)

/-- The VPC that `update_routes` enumerates route tables of. -/
def resolvedVpc (env : RouteEnv) (old_instance_id new_instance_id : String) :
    Option String :=
  (resolve_subnet env old_instance_id new_instance_id).bind env.subnetVpc

/-- `update_routes` (lines 114-149): resolve the scoping subnet and its VPC
(`none` models the uncaught exception when that fails), enumerate the VPC's
route tables, and run the delete/create loop over them.  `tables` is the
world's route-table state; `faults` the injected per-table API failures. -/
def update_routes (env : RouteEnv) (old_instance_id new_instance_id cidr : String)
    (faults : String → TableFaults) (tables : List RouteTable) :
    Option (List RouteTable × List RouteOp) :=
  match resolvedVpc env old_instance_id new_instance_id with
  | none => none
  | some vpc =>
    some (update_routes_loop cidr new_instance_id faults
      (get_route_tables vpc tables) tables)

/-- The fault-free run: every delete and create API call succeeds. -/
def noFaults : String → TableFaults :=
  fun _ => { deleteApiFails := false, createApiFails := false }

/-- The routes a table holds for a given destination CIDR. -/
def routesFor (rt : RouteTable) (cidr : String) : List Route :=
  rt.routes.filter (fun r => r.destinationCidr == cidr)

/-! ### Concrete fixtures used to instantiate the theorems -/

/-- A sample instance-info record in the running state. -/
def sampleInfo : InstanceInfo :=
  { ip := some "10.0.0.5", az := "eu-central-1a", state := "running",
    ami_id := "ami-1", instance_type := "t3.micro", subnet_id := "subnet-a" }

/-- A sample launch spec in AZ `eu-central-1a`, subnet `subnet-a`. -/
def sampleSpec : LaunchSpec :=
  { az := "eu-central-1a", subnet_id := "subnet-a", ami_id := "ami-1",
    instance_type := "t3.micro" }

/-- A region with two AZs and one subnet of `vpc-1` in each. -/
def sampleEnv : Env :=
  { azs := ["eu-central-1a", "eu-central-1b"],
    subnets := [{ subnetId := "subnet-a", vpcId := "vpc-1", az := "eu-central-1a" },
                { subnetId := "subnet-b", vpcId := "vpc-1", az := "eu-central-1b" }],
    newInstanceId := "i-new01" }

/-- A region with a single AZ and a single subnet: no alternate AZ exists, and
`vpc-1` has no subnet in `eu-central-1b`. -/
def sampleEnvOneAz : Env :=
  { azs := ["eu-central-1a"],
    subnets := [{ subnetId := "subnet-a", vpcId := "vpc-1", az := "eu-central-1a" }],
    newInstanceId := "i-new01" }

/-- A stale route pointing the sample CIDR at the old instance. -/
def sampleStaleRoute : Route :=
  { destinationCidr := "10.99.0.0/24", targetInstance := "i-old01" }

/-- Two route tables of `vpc-1`, each holding the stale route. -/
def sampleTables : List RouteTable :=
  [{ routeTableId := "rtb-1", vpcId := "vpc-1", routes := [sampleStaleRoute] },
   { routeTableId := "rtb-2", vpcId := "vpc-1", routes := [sampleStaleRoute] }]

/-- A route environment in which the old instance resolves to `subnet-a` of
`vpc-1`. -/
def sampleRouteEnv : RouteEnv :=
  { lookup := fun iid => if iid == "i-old01" then some sampleInfo else none,
    subnetVpc := fun sid => if sid == "subnet-a" then some "vpc-1" else none }

/-- The sample tables after a fault-free reconciliation to the new instance. -/
def sampleReconciledTables : List RouteTable :=
  [{ routeTableId := "rtb-1", vpcId := "vpc-1",
     routes := [{ destinationCidr := "10.99.0.0/24", targetInstance := "i-new01" }] },
   { routeTableId := "rtb-2", vpcId := "vpc-1",
     routes := [{ destinationCidr := "10.99.0.0/24", targetInstance := "i-new01" }] }]

/-- The API attempts of a reconciliation run over the two sample tables. -/
def sampleOps : List RouteOp :=
  [RouteOp.deleteAttempt "rtb-1", RouteOp.createAttempt "rtb-1",
   RouteOp.deleteAttempt "rtb-2", RouteOp.createAttempt "rtb-2"]

end EC2Controller

namespace EC2Controller

/-! ### Auxiliary lemmas -/

theorem head?_mem {α : Type} {l : List α} {a : α} (h : l.head? = some a) : a ∈ l := by
  cases l with
  | nil => simp at h
  | cons b bs => simp at h; simp [h]

/-! ### C1 — the failover decision -/

/-- C1: for every `HealthObservation` o, the decision is `NoAction` iff
o exists, is in state `running`, and is reachable; otherwise it is `Replace`
with reason `NotFound` when o does not exist, `NotRunning(state)` when it
exists in a non-running state, and `Unreachable` when it exists, runs, and is
not reachable. -/
theorem decideReplacement_noAction_iff (o : HealthObservation) :
    (decideReplacement o = Action.noAction ↔
      (o.instExists ∧ o.state = "running" ∧ o.reachable))
    ∧ (o.instExists = false →
        decideReplacement o = Action.replace ReplaceReason.notFound)
    ∧ (o.instExists → o.state ≠ "running" →
        decideReplacement o = Action.replace (ReplaceReason.notRunning o.state))
    ∧ (o.instExists → o.state = "running" → o.reachable = false →
        decideReplacement o = Action.replace ReplaceReason.unreachable) := by
  rcases o with ⟨e, s, r⟩
  by_cases hs : s = "running" <;> cases e <;> cases r <;>
    simp [decideReplacement, hs]

/-- Instantiation of the C1 characterization at a concrete stopped
observation. -/
theorem decideReplacement_noAction_iff_witness :
    decideReplacement { instExists := true, state := "stopped", reachable := false }
      = Action.replace (ReplaceReason.notRunning "stopped") :=
  (decideReplacement_noAction_iff _).2.2.1 (by decide) (by decide)

/-! ### C7 — the reachability probe -/

/-- C7: in a cycle where the instance exists and is `running`, exactly one
probe is performed, it targets the IP written before the `/` of the
destination CIDR (not the instance's own private IP), and its outcome alone —
zero exit reachable; non-zero exit, `TimeoutExpired` (2s per packet, 5s
overall), or launch error unreachable — determines `reachable`; when the
instance is absent or not running, no probe is performed. -/
theorem observeCycle_single_probe (info : Option InstanceInfo) (dest : String)
    (probe : String → ProbeOutcome) :
    (info = none → (observeCycle info dest probe).2 = [])
    ∧ (∀ i, info = some i → i.state ≠ "running" →
        (observeCycle info dest probe).2 = [])
    ∧ (∀ i, info = some i → i.state = "running" →
        (observeCycle info dest probe).2 = [route_ip dest]
        ∧ (observeCycle info dest probe).1.reachable
            = ping_instance (probe (route_ip dest))
        ∧ (∀ pip, i.ip = some pip → pip ≠ route_ip dest →
            pip ∉ (observeCycle info dest probe).2))
    ∧ ping_instance ProbeOutcome.success = true
    ∧ ping_instance ProbeOutcome.nonzeroExit = false
    ∧ ping_instance ProbeOutcome.timeoutExpired = false
    ∧ ping_instance ProbeOutcome.launchError = false
    ∧ ping_command (route_ip dest) = ["ping", "-c", "1", "-W", "2", route_ip dest]
    ∧ ping_overall_timeout = 5 := by
  refine ⟨fun h => by simp [h, observeCycle], fun i hi hs => ?_, fun i hi hs => ?_,
    rfl, rfl, rfl, rfl, rfl, rfl⟩
  · simp [hi, observeCycle, hs]
  · subst hi
    refine ⟨by simp [observeCycle, hs], by simp [observeCycle, hs], ?_⟩
    intro pip _ hne
    simp [observeCycle, hs, hne]

/-- Instantiation of C7 at a running instance whose single probe gets a
non-zero exit status: the probed address is the one before the `/` of the
CIDR, and the observation is unreachable. -/
theorem observeCycle_single_probe_witness :
    (observeCycle (some sampleInfo) "10.0.0.10/32"
        (fun _ => ProbeOutcome.nonzeroExit)).2 = [route_ip "10.0.0.10/32"]
    ∧ (observeCycle (some sampleInfo) "10.0.0.10/32"
        (fun _ => ProbeOutcome.nonzeroExit)).1.reachable = false := by
  have h := (observeCycle_single_probe (some sampleInfo) "10.0.0.10/32"
    (fun _ => ProbeOutcome.nonzeroExit)).2.2.1 sampleInfo rfl rfl
  exact ⟨h.1, h.2.1⟩

/-! ### C10 — every lookup failure becomes NotFound -/

/-- C10: `get_instance_info` maps every lookup failure — not only not-found —
to `None`, so the cycle's observation has `instExists = false`, no probe is
performed, and the decision is `Replace NotFound`. -/
theorem get_instance_info_any_error_notFound (e dest : String)
    (probe : String → ProbeOutcome) :
    get_instance_info (Except.error e) = none
    ∧ (observeCycle (get_instance_info (Except.error e)) dest probe).1.instExists
        = false
    ∧ (observeCycle (get_instance_info (Except.error e)) dest probe).2 = []
    ∧ decideReplacement (observeCycle (get_instance_info (Except.error e)) dest probe).1
        = Action.replace ReplaceReason.notFound := by
  simp [get_instance_info, observeCycle, decideReplacement]

/-! ### C3 — target AZ selection -/

/-- C3: whenever a cycle's replacement branch reaches a launch, the target AZ
is the head of the region's AZ list with the current/known AZ filtered out —
the first AZ differing from it — hence always distinct from the known AZ;
`a` is the monitored instance's AZ when info was available, and the
synthesized first-of-region AZ on the degraded path. -/
theorem replaceBranch_picks_first_other_az (env : Env) (info0 : Option LaunchSpec)
    (a t : String) (spec : LaunchSpec)
    (h : replaceBranch env info0 = ReplaceOutcome.launched a t spec) :
    (env.azs.filter (fun z => z ≠ a)).head? = some t
    ∧ t ∈ env.azs
    ∧ t ≠ a
    ∧ (∀ s, info0 = some s → a = s.az)
    ∧ (info0 = none → env.azs.head? = some a) := by
  have key : ∀ info : LaunchSpec,
      selectTargetAndLaunch env info = ReplaceOutcome.launched a t spec →
      (env.azs.filter (fun z => z ≠ a)).head? = some t ∧ t ∈ env.azs ∧ t ≠ a
        ∧ a = info.az := by
    intro info hsel
    unfold selectTargetAndLaunch get_other_azs at hsel
    cases hh : (env.azs.filter (fun z => z ≠ info.az)).head? with
    | none => rw [hh] at hsel; exact absurd hsel (by simp)
    | some t' =>
      rw [hh] at hsel
      obtain ⟨ha, ht, _⟩ := ReplaceOutcome.launched.inj hsel
      subst ha; subst ht
      have hmem := head?_mem hh
      have := List.mem_filter.mp hmem
      exact ⟨hh, this.1, by simpa using this.2, rfl⟩
  cases info0 with
  | some info =>
    unfold replaceBranch at h
    obtain ⟨h1, h2, h3, h4⟩ := key info h
    exact ⟨h1, h2, h3, fun s hs => by cases hs; exact h4, by simp⟩
  | none =>
    cases haz : env.azs.head? with
    | none => simp [replaceBranch, haz] at h
    | some az0 =>
      cases hsn : firstSubnetInAz env az0 with
      | none => simp [replaceBranch, haz, hsn] at h
      | some sn =>
        simp only [replaceBranch, haz, hsn] at h
        obtain ⟨h1, h2, h3, h4⟩ := key _ h
        refine ⟨h1, h2, h3, by simp, fun _ => ?_⟩
        rw [h4]

/-- Instantiation of C3 in the two-AZ sample region with the known AZ being
the first one: the launch targets the second AZ, which differs from it. -/
theorem replaceBranch_picks_first_other_az_witness :
    ("eu-central-1b" : String) ∈ sampleEnv.azs
    ∧ ("eu-central-1b" : String) ≠ "eu-central-1a" := by
  have h := replaceBranch_picks_first_other_az sampleEnv (some sampleSpec)
    "eu-central-1a" "eu-central-1b" sampleSpec (by decide)
  exact ⟨h.2.1, h.2.2.1⟩

/-! ### C8 — skipped cycle on missing AZ/subnet -/

/-- C8: when the instance lookup produced nothing and either the chosen AZ has
no subnet or no alternate AZ exists, the replacement branch skips the cycle
with the 5 second backoff, never reaches a launch, and leaves the only
persistent loop state — the current instance id — unchanged. -/
theorem replaceBranch_skip_backoff (env : Env) (cid az0 : String)
    (h0 : env.azs.head? = some az0)
    (h1 : firstSubnetInAz env az0 = none ∨ get_other_azs env az0 = []) :
    replaceBranch env none = ReplaceOutcome.skipBackoff 5
    ∧ (∀ a t s, replaceBranch env none ≠ ReplaceOutcome.launched a t s)
    ∧ cycleCurrentId env cid none = cid := by
  have hmain : replaceBranch env none = ReplaceOutcome.skipBackoff 5 := by
    cases hsn : firstSubnetInAz env az0 with
    | none => simp [replaceBranch, h0, hsn]
    | some sn =>
      cases h1 with
      | inl hcon => rw [hsn] at hcon; exact absurd hcon (by simp)
      | inr hother =>
        simp [replaceBranch, h0, hsn, selectTargetAndLaunch, hother]
  refine ⟨hmain, fun a t s => by rw [hmain]; simp, ?_⟩
  unfold cycleCurrentId
  rw [hmain]

/-- Instantiation of C8 in the one-AZ sample region: the degraded path finds a
subnet but no alternate AZ, so the cycle is skipped with a 5 second backoff
and the monitored id is unchanged. -/
theorem replaceBranch_skip_backoff_witness :
    replaceBranch sampleEnvOneAz none = ReplaceOutcome.skipBackoff 5
    ∧ cycleCurrentId sampleEnvOneAz "i-old01" none = "i-old01" := by
  have h := replaceBranch_skip_backoff sampleEnvOneAz "i-old01" "eu-central-1a"
    (by decide) (Or.inr (by decide))
  exact ⟨h.1, h.2.2⟩

/-! ### C9 — launch fails when the target AZ has no subnet of the VPC -/

/-- C9: when the source subnet resolves but its VPC has no subnet in the
target AZ, `launch_instance_in_az` raises (returns the error) directly after
the resolution step, with no `run_instances` call — no instance is created. -/
theorem launch_instance_in_az_no_subnet_fails (env : Env) (spec : LaunchSpec)
    (target_az : String) (orig : Subnet)
    (horig : env.subnets.find? (fun s => s.subnetId == spec.subnet_id) = some orig)
    (hnone : ∀ s ∈ env.subnets, ¬(s.vpcId = orig.vpcId ∧ s.az = target_az)) :
    launch_instance_in_az env spec target_az
      = ([ProvisionEvent.resolveTargetSubnet],
         Except.error ("No subnet found in AZ " ++ target_az))
    ∧ ProvisionEvent.runInstances ∉ (launch_instance_in_az env spec target_az).1 := by
  have hfind : env.subnets.find?
      (fun s => s.vpcId == orig.vpcId && s.az == target_az) = none := by
    rw [List.find?_eq_none]
    intro s hs
    have := hnone s hs
    simp only [Bool.and_eq_true, beq_iff_eq]
    intro hcon
    exact this hcon
  have hmain : launch_instance_in_az env spec target_az
      = ([ProvisionEvent.resolveTargetSubnet],
         Except.error ("No subnet found in AZ " ++ target_az)) := by
    simp [launch_instance_in_az, get_subnet_in_az, horig, hfind]
  exact ⟨hmain, by rw [hmain]; simp⟩

/-- Instantiation of C9: in the one-AZ sample region `vpc-1` has no subnet in
`eu-central-1b`, so the launch raises with no instance created. -/
theorem launch_instance_in_az_no_subnet_fails_witness :
    launch_instance_in_az sampleEnvOneAz sampleSpec "eu-central-1b"
      = ([ProvisionEvent.resolveTargetSubnet],
         Except.error ("No subnet found in AZ " ++ "eu-central-1b")) := by
  have h := launch_instance_in_az_no_subnet_fails sampleEnvOneAz sampleSpec
    "eu-central-1b" { subnetId := "subnet-a", vpcId := "vpc-1", az := "eu-central-1a" }
    (by decide) (by decide)
  exact h.1

/-! ### C2 — order of the provisioning steps (corrected) -/

/-- C2 (counterexample): the claimed order — create, wait running, wait status
checks, and only then disable the source/dest check — is false of the actual
replacement sequence: on the sample environment the source/dest check is
disabled before the status-check wait. -/
theorem replaceSequence_spec_order_refuted :
    ¬ (((mainReplaceSequence sampleEnv sampleSpec "eu-central-1b").1.indexOf
          ProvisionEvent.runInstances
        < (mainReplaceSequence sampleEnv sampleSpec "eu-central-1b").1.indexOf
          ProvisionEvent.waitRunning)
      ∧ ((mainReplaceSequence sampleEnv sampleSpec "eu-central-1b").1.indexOf
          ProvisionEvent.waitRunning
        < (mainReplaceSequence sampleEnv sampleSpec "eu-central-1b").1.indexOf
          ProvisionEvent.waitStatusOk)
      ∧ ((mainReplaceSequence sampleEnv sampleSpec "eu-central-1b").1.indexOf
          ProvisionEvent.waitStatusOk
        < (mainReplaceSequence sampleEnv sampleSpec "eu-central-1b").1.indexOf
          ProvisionEvent.disableSourceDestCheck)) := by
  decide

/-- C2 (amended): in every successful replacement sequence the steps occur in
the order: create the instance, wait for the running state, disable the
source/dest check on the primary network interface, and then wait for the
platform status checks. -/
theorem replaceSequence_actual_order (env : Env) (spec : LaunchSpec)
    (target_az newId : String) (evs : List ProvisionEvent)
    (h : mainReplaceSequence env spec target_az = (evs, Except.ok newId)) :
    evs.indexOf ProvisionEvent.runInstances < evs.indexOf ProvisionEvent.waitRunning
    ∧ evs.indexOf ProvisionEvent.waitRunning
        < evs.indexOf ProvisionEvent.disableSourceDestCheck
    ∧ evs.indexOf ProvisionEvent.disableSourceDestCheck
        < evs.indexOf ProvisionEvent.waitStatusOk := by
  unfold mainReplaceSequence launch_instance_in_az at h
  cases hsn : get_subnet_in_az env target_az spec.subnet_id with
  | none => simp only [hsn] at h; exact absurd h (by simp)
  | some sn =>
    simp only [hsn] at h
    obtain ⟨hevs, -⟩ := Prod.mk.inj h
    subst hevs
    decide

/-- Instantiation of the amended C2 order on the sample environment. -/
theorem replaceSequence_actual_order_witness :
    ([ProvisionEvent.resolveTargetSubnet, ProvisionEvent.computeGateway,
      ProvisionEvent.renderUserData, ProvisionEvent.runInstances,
      ProvisionEvent.waitRunning, ProvisionEvent.describeInstanceForEni,
      ProvisionEvent.disableSourceDestCheck]
      ++ [ProvisionEvent.waitStatusOk, ProvisionEvent.sleepGrace,
          ProvisionEvent.updateRoutesCall,
          ProvisionEvent.terminateOldInstance]).indexOf
        ProvisionEvent.disableSourceDestCheck
      < ([ProvisionEvent.resolveTargetSubnet, ProvisionEvent.computeGateway,
          ProvisionEvent.renderUserData, ProvisionEvent.runInstances,
          ProvisionEvent.waitRunning, ProvisionEvent.describeInstanceForEni,
          ProvisionEvent.disableSourceDestCheck]
          ++ [ProvisionEvent.waitStatusOk, ProvisionEvent.sleepGrace,
              ProvisionEvent.updateRoutesCall,
              ProvisionEvent.terminateOldInstance]).indexOf
        ProvisionEvent.waitStatusOk :=
  (replaceSequence_actual_order sampleEnv sampleSpec "eu-central-1b" "i-new01"
    _ rfl).2.2

/-! ### Route-reconciliation lemmas -/

theorem delete_route_routeTableId (c : String) (rt : RouteTable) :
    (delete_route c rt).routeTableId = rt.routeTableId := rfl

theorem delete_route_vpcId (c : String) (rt : RouteTable) :
    (delete_route c rt).vpcId = rt.vpcId := rfl

theorem create_route_routeTableId (c n : String) (rt : RouteTable) :
    (create_route c n rt).routeTableId = rt.routeTableId := by
  unfold create_route
  split <;> rfl

theorem create_route_vpcId (c n : String) (rt : RouteTable) :
    (create_route c n rt).vpcId = rt.vpcId := by
  unfold create_route
  split <;> rfl

theorem processTable_routeTableId (c n : String) (f : TableFaults) (rt : RouteTable) :
    (processTable c n f rt).routeTableId = rt.routeTableId := by
  unfold processTable
  cases hf : f.deleteApiFails <;> cases hg : f.createApiFails <;>
    simp [hf, hg, create_route_routeTableId, delete_route_routeTableId]

theorem processTable_vpcId (c n : String) (f : TableFaults) (rt : RouteTable) :
    (processTable c n f rt).vpcId = rt.vpcId := by
  unfold processTable
  cases hf : f.deleteApiFails <;> cases hg : f.createApiFails <;>
    simp [hf, hg, create_route_vpcId, delete_route_vpcId]

theorem any_filter_not_cidr (c : String) (l : List Route) :
    (l.filter (fun r => !(r.destinationCidr == c))).any
      (fun r => r.destinationCidr == c) = false := by
  induction l with
  | nil => rfl
  | cons r l ih =>
    by_cases h : r.destinationCidr = c <;> simp [List.filter_cons, h, ih]

theorem filter_cidr_of_delete (c : String) (l : List Route) :
    (l.filter (fun r => !(r.destinationCidr == c))).filter
      (fun r => r.destinationCidr == c) = [] := by
  induction l with
  | nil => rfl
  | cons r l ih =>
    by_cases h : r.destinationCidr = c <;> simp [List.filter_cons, h, ih]

theorem routeExistsFor_delete (c : String) (rt : RouteTable) :
    routeExistsFor (delete_route c rt) c = false := by
  unfold routeExistsFor delete_route
  exact any_filter_not_cidr c rt.routes

theorem processTable_noFault (c n : String) (rt : RouteTable) :
    processTable c n { deleteApiFails := false, createApiFails := false } rt
      = { rt with routes := rt.routes.filter (fun r => !(r.destinationCidr == c))
            ++ [{ destinationCidr := c, targetInstance := n }] } := by
  show create_route c n (delete_route c rt) = _
  unfold create_route
  rw [routeExistsFor_delete]
  simp [delete_route]

theorem routesFor_processTable_noFault (c n : String) (rt : RouteTable) :
    routesFor (processTable c n { deleteApiFails := false, createApiFails := false } rt) c
      = [{ destinationCidr := c, targetInstance := n }] := by
  rw [processTable_noFault]
  unfold routesFor
  simp [List.filter_append, filter_cidr_of_delete]

theorem create_route_idem (c n : String) (rt : RouteTable) :
    create_route c n (create_route c n rt) = create_route c n rt := by
  cases h : routeExistsFor rt c with
  | true => simp [create_route, h]
  | false =>
    have h2 : routeExistsFor
        { rt with routes := rt.routes
            ++ [{ destinationCidr := c, targetInstance := n }] } c = true := by
      simp [routeExistsFor]
    simp [create_route, h, h2]

theorem delete_route_idem (c : String) (rt : RouteTable) :
    delete_route c (delete_route c rt) = delete_route c rt := by
  simp [delete_route, List.filter_filter]

theorem processTable_idem (c n : String) (f : TableFaults) (rt : RouteTable) :
    processTable c n f (processTable c n f rt) = processTable c n f rt := by
  cases hf : f.deleteApiFails <;> cases hg : f.createApiFails <;>
    simp only [processTable, hf, hg, if_true, if_false, Bool.false_eq_true]
  · have hd : delete_route c (create_route c n (delete_route c rt))
        = delete_route c rt := by
      unfold create_route
      rw [routeExistsFor_delete]
      simp [delete_route, List.filter_append, List.filter_filter]
    rw [hd]
  · exact delete_route_idem c rt
  · exact create_route_idem c n rt

theorem update_routes_loop_fst (c n : String) (faults : String → TableFaults) :
    ∀ (ids : List String) (tables : List RouteTable),
      (update_routes_loop c n faults ids tables).1
        = tables.map (fun rt =>
            if ids.contains rt.routeTableId
            then processTable c n (faults rt.routeTableId) rt else rt) := by
  intro ids
  induction ids with
  | nil =>
    intro tables
    simp [update_routes_loop]
  | cons a rest ih =>
    intro tables
    have step : (update_routes_loop c n faults (a :: rest) tables).1
        = (update_routes_loop c n faults rest
            (applyToTable a (processTable c n (faults a)) tables)).1 := rfl
    rw [step, ih]
    unfold applyToTable
    rw [List.map_map]
    congr 1
    funext rt
    by_cases ha : rt.routeTableId = a
    · subst ha
      simp only [Function.comp_apply, beq_self_eq_true, if_true]
      rw [processTable_routeTableId]
      cases hrest : rest.contains rt.routeTableId <;>
        simp [hrest, processTable_idem, List.contains_cons]
    · have hba : (rt.routeTableId == a) = false := by simp [ha]
      simp [Function.comp, hba, List.contains_cons, ha]

theorem update_routes_loop_ops (c n : String) (faults : String → TableFaults) :
    ∀ (ids : List String) (tables : List RouteTable) (rtId : String), rtId ∈ ids →
      RouteOp.deleteAttempt rtId ∈ (update_routes_loop c n faults ids tables).2
      ∧ RouteOp.createAttempt rtId ∈ (update_routes_loop c n faults ids tables).2 := by
  intro ids
  induction ids with
  | nil =>
    intro tables rtId h
    simp at h
  | cons a rest ih =>
    intro tables rtId h
    have hsnd : (update_routes_loop c n faults (a :: rest) tables).2
        = RouteOp.deleteAttempt a :: RouteOp.createAttempt a ::
          (update_routes_loop c n faults rest
            (applyToTable a (processTable c n (faults a)) tables)).2 := rfl
    rw [hsnd]
    rcases List.mem_cons.mp h with heq | hmem
    · subst heq
      exact ⟨List.mem_cons_self _ _, List.mem_cons_of_mem _ (List.mem_cons_self _ _)⟩
    · have hrec := ih (applyToTable a (processTable c n (faults a)) tables) rtId hmem
      exact ⟨List.mem_cons_of_mem _ (List.mem_cons_of_mem _ hrec.1),
             List.mem_cons_of_mem _ (List.mem_cons_of_mem _ hrec.2)⟩

theorem get_route_tables_map (vpc : String) (g : RouteTable → RouteTable)
    (hid : ∀ rt, (g rt).routeTableId = rt.routeTableId)
    (hvpc : ∀ rt, (g rt).vpcId = rt.vpcId) (tables : List RouteTable) :
    get_route_tables vpc (tables.map g) = get_route_tables vpc tables := by
  unfold get_route_tables
  induction tables with
  | nil => rfl
  | cons rt ts ih =>
    simp only [List.map_cons, List.filter_cons, hvpc rt]
    cases h : (rt.vpcId == vpc) with
    | false => simpa [h] using ih
    | true => simpa [h, hid rt] using ih

theorem update_routes_loop_shape (c n : String) (faults : String → TableFaults)
    (vpc : String) (ids : List String) (tables : List RouteTable) :
    get_route_tables vpc ((update_routes_loop c n faults ids tables).1)
      = get_route_tables vpc tables := by
  rw [update_routes_loop_fst]
  apply get_route_tables_map
  · intro rt
    cases h : ids.contains rt.routeTableId <;> simp [h, processTable_routeTableId]
  · intro rt
    cases h : ids.contains rt.routeTableId <;> simp [h, processTable_vpcId]

theorem update_routes_loop_fst_idem (c n : String) (faults : String → TableFaults)
    (ids : List String) (tables : List RouteTable) :
    (update_routes_loop c n faults ids ((update_routes_loop c n faults ids tables).1)).1
      = (update_routes_loop c n faults ids tables).1 := by
  rw [update_routes_loop_fst, update_routes_loop_fst, List.map_map]
  congr 1
  funext rt
  by_cases h : ids.contains rt.routeTableId = true
  · simp only [Function.comp_apply, h, if_true]
    rw [processTable_routeTableId]
    simp [h, processTable_idem]
  · have hmem : rt.routeTableId ∉ ids := by simpa using h
    simp [Function.comp, hmem]

/-! ### C4 — reconciliation is idempotent -/

/-- C4: running the fault-free `update_routes` a second time with the same
arguments on the tables the first run produced succeeds and leaves them
unchanged: two consecutive invocations end in the same route-table contents
as one. -/
theorem update_routes_idempotent (env : RouteEnv) (old new c : String)
    (tables ts1 : List RouteTable) (ops1 : List RouteOp)
    (h : update_routes env old new c noFaults tables = some (ts1, ops1)) :
    ∃ ops2, update_routes env old new c noFaults ts1 = some (ts1, ops2) := by
  unfold update_routes at h ⊢
  cases hv : resolvedVpc env old new with
  | none => simp [hv] at h
  | some vpc =>
    simp only [hv] at h ⊢
    have hpair := Option.some.inj h
    have hts : (update_routes_loop c new noFaults
        (get_route_tables vpc tables) tables).1 = ts1 := by rw [hpair]
    subst hts
    have pe : ∀ (p : List RouteTable × List RouteOp) (q : List RouteTable),
        p.1 = q → (some p : Option (List RouteTable × List RouteOp)) = some (q, p.2) := by
      intro p q hq
      cases p
      cases hq
      rfl
    refine ⟨_, pe _ _ ?_⟩
    rw [update_routes_loop_shape]
    exact update_routes_loop_fst_idem c new noFaults (get_route_tables vpc tables) tables

/-- Instantiation of C4: re-running the sample reconciliation on its own
output returns the output unchanged. -/
theorem update_routes_idempotent_witness :
    ∃ ops2, update_routes sampleRouteEnv "i-old01" "i-new01" "10.99.0.0/24"
      noFaults sampleReconciledTables = some (sampleReconciledTables, ops2) :=
  update_routes_idempotent sampleRouteEnv "i-old01" "i-new01" "10.99.0.0/24"
    sampleTables sampleReconciledTables sampleOps rfl

/-! ### C5 — convergence of every table of the VPC -/

/-- C5: for a VPC whose route tables each hold a stale route to the CIDR,
a fault-free `update_routes` run leaves every one of them holding exactly one
route for that CIDR, pointing at the new instance id. -/
theorem update_routes_converges_per_table (env : RouteEnv) (old new c v : String)
    (tables ts : List RouteTable) (ops : List RouteOp)
    (hv : resolvedVpc env old new = some v)
    (hvpc : ∀ rt ∈ tables, rt.vpcId = v)
    (hstale : ∀ rt ∈ tables, routesFor rt c ≠ [])
    (hrun : update_routes env old new c noFaults tables = some (ts, ops)) :
    ts.length = tables.length
    ∧ ∀ rt ∈ ts, routesFor rt c
        = [{ destinationCidr := c, targetInstance := new }] := by
  unfold update_routes at hrun
  simp only [hv] at hrun
  have hpair := Option.some.inj hrun
  have hts : ts = (update_routes_loop c new noFaults
      (get_route_tables v tables) tables).1 := by rw [hpair]
  rw [hts, update_routes_loop_fst]
  refine ⟨by simp, ?_⟩
  intro rt' hrt'
  obtain ⟨rt, hrt, hgrt⟩ := List.mem_map.mp hrt'
  have hidmem : rt.routeTableId ∈ get_route_tables v tables := by
    unfold get_route_tables
    exact List.mem_map.mpr ⟨rt,
      List.mem_filter.mpr ⟨hrt, by simp [hvpc rt hrt]⟩, rfl⟩
  have hcont : (get_route_tables v tables).contains rt.routeTableId = true := by
    simpa using hidmem
  rw [← hgrt]
  simp only [hcont, if_true]
  exact routesFor_processTable_noFault c new rt

/-- Instantiation of C5 on the two sample tables with a stale route each. -/
theorem update_routes_converges_per_table_witness :
    sampleReconciledTables.length = sampleTables.length
    ∧ ∀ rt ∈ sampleReconciledTables, routesFor rt "10.99.0.0/24"
        = [{ destinationCidr := "10.99.0.0/24", targetInstance := "i-new01" }] :=
  update_routes_converges_per_table sampleRouteEnv "i-old01" "i-new01"
    "10.99.0.0/24" "vpc-1" sampleTables sampleReconciledTables sampleOps
    rfl (by decide) (by decide) rfl

/-! ### C6 — per-table independence of the loop -/

/-- C6: each enumerated route table is processed independently: the final
contents of a table depend only on that table and its own injected faults
(never on another table's failure); both the delete and the create are
attempted for every enumerated table whatever the faults; and a table with no
pre-existing route for the CIDR is reconciled without error, ending with the
new route. -/
theorem update_routes_tables_independent (env : RouteEnv) (old new c v : String)
    (faults : String → TableFaults) (tables ts : List RouteTable) (ops : List RouteOp)
    (hv : resolvedVpc env old new = some v)
    (hrun : update_routes env old new c faults tables = some (ts, ops)) :
    ts = tables.map (fun rt =>
        if (get_route_tables v tables).contains rt.routeTableId
        then processTable c new (faults rt.routeTableId) rt else rt)
    ∧ (∀ rtId ∈ get_route_tables v tables,
        RouteOp.deleteAttempt rtId ∈ ops ∧ RouteOp.createAttempt rtId ∈ ops)
    ∧ (∀ rt : RouteTable, routesFor rt c = [] →
        routesFor (processTable c new
          { deleteApiFails := false, createApiFails := false } rt) c
          = [{ destinationCidr := c, targetInstance := new }]) := by
  unfold update_routes at hrun
  simp only [hv] at hrun
  have hpair := Option.some.inj hrun
  refine ⟨?_, ?_, fun rt _ => routesFor_processTable_noFault c new rt⟩
  · have hts : ts = (update_routes_loop c new faults
        (get_route_tables v tables) tables).1 := by rw [hpair]
    rw [hts, update_routes_loop_fst]
  · have hops : ops = (update_routes_loop c new faults
        (get_route_tables v tables) tables).2 := by rw [hpair]
    intro rtId hmem
    rw [hops]
    exact update_routes_loop_ops c new faults _ tables rtId hmem

/-- Instantiation of C6: in the fault-free sample run over the two sample
tables, both API calls are attempted on the first table. -/
theorem update_routes_tables_independent_witness :
    RouteOp.deleteAttempt "rtb-1" ∈ sampleOps
    ∧ RouteOp.createAttempt "rtb-1" ∈ sampleOps :=
  (update_routes_tables_independent sampleRouteEnv "i-old01" "i-new01"
    "10.99.0.0/24" "vpc-1" noFaults sampleTables sampleReconciledTables sampleOps
    rfl rfl).2.1 "rtb-1" (by decide)

end EC2Controller
